import Mathlib

/-!
Shallow embedding of `src/main.py`, a FastAPI service with three endpoints
over a PostgreSQL `audits` table, plus a production-only static/SPA fallback
route.  Python values travelling over HTTP or stored in the `report_data`
JSONB column are modelled by the `Json` inductive; database state by `DB`;
each handler by a function returning a `PyResult Json` (a returned value or a
raised exception), which the framework layer `serveResult` maps to an HTTP
`Response` exactly as FastAPI/Starlette do (returned value → success status,
`HTTPException(s, d)` → status `s` with body `{"detail": d}`, any other
escaped exception → a plain 500 "Internal Server Error" from
`ServerErrorMiddleware`).
-/

namespace AuditBackend

/-- JSON values, the data interchanged by the service (request bodies,
response bodies, and the structured content of the `report_data` JSONB
column). Numbers are modelled as integers, which covers every value the
claims exercise. -/
inductive Json where
  | null : Json
  | bool (b : Bool) : Json
  | num (n : Int) : Json
  | str (s : String) : Json
  | arr (xs : List Json) : Json
  | obj (fields : List (String × Json)) : Json
deriving Repr

mutual

/-- Decidable equality on JSON values (hand-written because of the nested
lists). -/
def Json.decEq : (a b : Json) → Decidable (a = b)
  | .null, .null => .isTrue rfl
  | .bool a, .bool b =>
    if h : a = b then .isTrue (h ▸ rfl)
    else .isFalse (fun hh => h (Json.bool.inj hh))
  | .num a, .num b =>
    if h : a = b then .isTrue (h ▸ rfl)
    else .isFalse (fun hh => h (Json.num.inj hh))
  | .str a, .str b =>
    if h : a = b then .isTrue (h ▸ rfl)
    else .isFalse (fun hh => h (Json.str.inj hh))
  | .arr a, .arr b =>
    match Json.decEqList a b with
    | .isTrue h => .isTrue (h ▸ rfl)
    | .isFalse h => .isFalse (fun hh => h (Json.arr.inj hh))
  | .obj a, .obj b =>
    match Json.decEqFields a b with
    | .isTrue h => .isTrue (h ▸ rfl)
    | .isFalse h => .isFalse (fun hh => h (Json.obj.inj hh))
  | .null, .bool _ => .isFalse nofun
  | .null, .num _ => .isFalse nofun
  | .null, .str _ => .isFalse nofun
  | .null, .arr _ => .isFalse nofun
  | .null, .obj _ => .isFalse nofun
  | .bool _, .null => .isFalse nofun
  | .bool _, .num _ => .isFalse nofun
  | .bool _, .str _ => .isFalse nofun
  | .bool _, .arr _ => .isFalse nofun
  | .bool _, .obj _ => .isFalse nofun
  | .num _, .null => .isFalse nofun
  | .num _, .bool _ => .isFalse nofun
  | .num _, .str _ => .isFalse nofun
  | .num _, .arr _ => .isFalse nofun
  | .num _, .obj _ => .isFalse nofun
  | .str _, .null => .isFalse nofun
  | .str _, .bool _ => .isFalse nofun
  | .str _, .num _ => .isFalse nofun
  | .str _, .arr _ => .isFalse nofun
  | .str _, .obj _ => .isFalse nofun
  | .arr _, .null => .isFalse nofun
  | .arr _, .bool _ => .isFalse nofun
  | .arr _, .num _ => .isFalse nofun
  | .arr _, .str _ => .isFalse nofun
  | .arr _, .obj _ => .isFalse nofun
  | .obj _, .null => .isFalse nofun
  | .obj _, .bool _ => .isFalse nofun
  | .obj _, .num _ => .isFalse nofun
  | .obj _, .str _ => .isFalse nofun
  | .obj _, .arr _ => .isFalse nofun

/-- Decidable equality on lists of JSON values. -/
def Json.decEqList : (a b : List Json) → Decidable (a = b)
  | [], [] => .isTrue rfl
  | [], _ :: _ => .isFalse nofun
  | _ :: _, [] => .isFalse nofun
  | x :: xs, y :: ys =>
    match Json.decEq x y with
    | .isFalse h => .isFalse (fun hh => h (List.head_eq_of_cons_eq hh))
    | .isTrue h1 =>
      match Json.decEqList xs ys with
      | .isTrue h2 => .isTrue (h1 ▸ h2 ▸ rfl)
      | .isFalse h => .isFalse (fun hh => h (List.tail_eq_of_cons_eq hh))

/-- Decidable equality on JSON object field lists. -/
def Json.decEqFields : (a b : List (String × Json)) → Decidable (a = b)
  | [], [] => .isTrue rfl
  | [], _ :: _ => .isFalse nofun
  | _ :: _, [] => .isFalse nofun
  | (k1, v1) :: xs, (k2, v2) :: ys =>
    if hk : k1 = k2 then
      match Json.decEq v1 v2 with
      | .isFalse h => .isFalse (fun hh => h (congrArg Prod.snd (List.head_eq_of_cons_eq hh)))
      | .isTrue hv =>
        match Json.decEqFields xs ys with
        | .isTrue h2 => .isTrue (hk ▸ hv ▸ h2 ▸ rfl)
        | .isFalse h => .isFalse (fun hh => h (List.tail_eq_of_cons_eq hh))
    else .isFalse (fun hh => hk (congrArg Prod.fst (List.head_eq_of_cons_eq hh)))

end

instance : DecidableEq Json := Json.decEq

/-- Looks up the first binding of key `k` in a JSON object's field list
(Python `dict` access). -/
def lookupField (k : String) : List (String × Json) → Option Json
  | [] => none
  | (k2, v) :: rest => if k2 = k then some v else lookupField k rest

/-- The field names of a JSON object, in order (`[]` for non-objects). -/
def jsonKeys : Json → List String
  | .obj fs => fs.map Prod.fst
  | _ => []

/-- Bytewise-on-UTF-8 comparison of two key texts (UTF-8 byte order agrees
with code-point order, so comparing character code points is the same). -/
def charListLt : List Char → List Char → Bool
  | [], [] => false
  | [], _ :: _ => true
  | _ :: _, [] => false
  | a :: as, b :: bs => if a < b then true else if b < a then false else charListLt as bs

/-- PostgreSQL's jsonb object-key order: shorter keys first, equal lengths
bytewise. -/
def keyLt (a b : String) : Bool :=
  if a.length < b.length then true
  else if b.length < a.length then false
  else charListLt a.data b.data

/-- Drops every field whose key occurs again later in the list — jsonb keeps
only the last value of a duplicated key. -/
def dedupFields : List (String × Json) → List (String × Json)
  | [] => []
  | (k, v) :: rest =>
    if (rest.map Prod.fst).contains k then dedupFields rest
    else (k, v) :: dedupFields rest

/-- Inserts a field into a list already sorted by `keyLt`, keeping it
sorted. -/
def insertField (p : String × Json) : List (String × Json) → List (String × Json)
  | [] => [p]
  | q :: qs => if keyLt p.1 q.1 then p :: q :: qs else q :: insertField p qs

/-- Sorts an object's fields in jsonb key order. -/
def sortFields : List (String × Json) → List (String × Json)
  | [] => []
  | p :: ps => insertField p (sortFields ps)

mutual

/-- The structure PostgreSQL's jsonb type stores for a parsed JSON value:
scalars and array order are preserved, while each object keeps only the last
value of a duplicated key and holds its keys sorted by length, then
bytewise. -/
def jsonbNorm : Json → Json
  | .null => .null
  | .bool b => .bool b
  | .num n => .num n
  | .str s => .str s
  | .arr xs => .arr (jsonbNormList xs)
  | .obj fs => .obj (sortFields (dedupFields (jsonbNormFields fs)))

/-- Normalises the elements of a JSON array. -/
def jsonbNormList : List Json → List Json
  | [] => []
  | x :: xs => jsonbNorm x :: jsonbNormList xs

/-- Normalises the values of an object's fields. -/
def jsonbNormFields : List (String × Json) → List (String × Json)
  | [] => []
  | (k, v) :: fs => (k, jsonbNorm v) :: jsonbNormFields fs

end

/-- The jsonb value the database stores for the INSERT at
`src/main.py:128-144`: `create_audit` serialises `report_data` with
`json.dumps` (`src/main.py:137`, necessary because no asyncpg `jsonb` codec
is registered) and passes the text, which the jsonb column parses back to
the same structure and normalises. -/
def jsonbStore (v : Json) : Json := jsonbNorm v

/-- One hexadecimal digit, lower case. -/
def hexDigitChar (n : Nat) : Char :=
  if n < 10 then Char.ofNat (48 + n) else Char.ofNat (87 + n)

/-- JSON string escaping as PostgreSQL renders jsonb text: quote and
backslash escaped, the named control escapes, `\u00XX` for the remaining
control characters, anything else (non-ASCII included, the database being
UTF-8) written as is. -/
def pgEscapeChar (c : Char) : String :=
  if c = '"' then "\\\""
  else if c = '\\' then "\\\\"
  else if c.toNat = 8 then "\\b"
  else if c.toNat = 9 then "\\t"
  else if c.toNat = 10 then "\\n"
  else if c.toNat = 12 then "\\f"
  else if c.toNat = 13 then "\\r"
  else if c.toNat < 32 then
    "\\u00" ++ String.singleton (hexDigitChar (c.toNat / 16))
      ++ String.singleton (hexDigitChar (c.toNat % 16))
  else String.singleton c

/-- Escapes a whole string for jsonb text output. -/
def pgEscape (s : String) : String :=
  s.data.foldl (fun acc c => acc ++ pgEscapeChar c) ""

mutual

/-- The text in which PostgreSQL renders a stored jsonb value (separators
`", "` and `": "`): because no asyncpg type codec for `jsonb` is registered,
this text — a string — is what a fetched `report_data` column comes back
as. -/
def jsonbText : Json → String
  | .null => "null"
  | .bool true => "true"
  | .bool false => "false"
  | .num n => toString n
  | .str s => "\"" ++ pgEscape s ++ "\""
  | .arr xs => "[" ++ jsonbTextList xs ++ "]"
  | .obj fs => "\x7b" ++ jsonbTextFields fs ++ "\x7d"

/-- Renders a jsonb array's elements, comma separated. -/
def jsonbTextList : List Json → String
  | [] => ""
  | [x] => jsonbText x
  | x :: y :: xs => jsonbText x ++ ", " ++ jsonbTextList (y :: xs)

/-- Renders a jsonb object's fields, comma separated. -/
def jsonbTextFields : List (String × Json) → String
  | [] => ""
  | [(k, v)] => "\"" ++ pgEscape k ++ "\": " ++ jsonbText v
  | (k, v) :: y :: xs =>
    "\"" ++ pgEscape k ++ "\": " ++ jsonbText v ++ ", " ++ jsonbTextFields (y :: xs)

end

/-- One row of the `audits` table created at `src/main.py:50-56`:
`id SERIAL PRIMARY KEY, audit_name VARCHAR(255) NOT NULL, created_at
TIMESTAMP WITH TIME ZONE DEFAULT CURRENT_TIMESTAMP, report_data JSONB`.
Timestamps are modelled as integer ticks (their ISO rendering preserves
order); the JSONB column stores the parsed, jsonb-normalised structure of
the inserted JSON text (see `jsonbStore`). -/
structure AuditRow where
  id : Nat
  audit_name : String
  created_at : Nat
  report_data : Json
deriving Repr, DecidableEq

/-- The database state: the rows of `audits` and the next value of the
`SERIAL` id sequence. -/
structure DB where
  rows : List AuditRow
  nextId : Nat
deriving Repr, DecidableEq

/-- The state right after the schema initialiser ran on a fresh database:
no rows, `SERIAL` sequence at 1. -/
def DB.init : DB := ⟨[], 1⟩

/-- All stored ids are below the `SERIAL` sequence value — the invariant the
sequence maintains (ids are handed out only by `nextval`). -/
def DBinv (db : DB) : Prop := ∀ r ∈ db.rows, r.id < db.nextId

/-- A live asyncpg pool object (as stored into `app.state.pool` at
`src/main.py:47` on successful startup). -/
inductive PoolObj where
  | live : PoolObj
deriving Repr, DecidableEq

/-- Python truthiness of an asyncpg `Pool` object: it defines neither
`__bool__` nor `__len__`, so it is always truthy. -/
def poolTruthy (_ : PoolObj) : Bool := true

/-- The `pool` attribute of Starlette's `app.state`: either never assigned
(pool creation at `src/main.py:40-46` raised, so line 47 never ran) or set
to a live pool. -/
inductive StatePool where
  | unset : StatePool
  | set (p : PoolObj) : StatePool
deriving Repr, DecidableEq

/-- Reading `app.state.pool`: Starlette's `State.__getattr__` raises
`AttributeError` when the attribute was never assigned. -/
def getPoolAttr : StatePool → Except String PoolObj
  | .unset => .error "AttributeError: State object has no attribute pool"
  | .set p => .ok p

/-- A Python exception relevant to the handlers: FastAPI's `HTTPException`
carrying a status code and detail string, or any other exception carrying
its message. -/
inductive PyExn where
  | httpExc (status : Nat) (detail : String) : PyExn
  | other (msg : String) : PyExn
deriving Repr, DecidableEq

/-- The outcome of running a Python handler body: a returned value or a
raised exception. -/
inductive PyResult (α : Type) where
  | ok (a : α) : PyResult α
  | exn (e : PyExn) : PyResult α
deriving Repr, DecidableEq

/-- An HTTP response: status code and JSON body. -/
structure Response where
  status : Nat
  body : Json
deriving Repr, DecidableEq

/-- The framework layer around a handler: a returned value becomes a response
with the route's success status, a raised `HTTPException(s, d)` becomes
status `s` with body `{"detail": d}`, and any other escaped exception is
turned into a plain 500 "Internal Server Error" by Starlette's
`ServerErrorMiddleware`. -/
def serveResult (okStatus : Nat) : PyResult Json → Response
  | .ok j => ⟨okStatus, j⟩
  | .exn (.httpExc s d) => ⟨s, .obj [("detail", .str d)]⟩
  | .exn (.other _) => ⟨500, .str "Internal Server Error"⟩

/-- The `dict(row)` of one row of the list query at `src/main.py:96`
(`SELECT id, audit_name, created_at FROM audits`): exactly the three
selected columns, in selection order. -/
def summaryJson (r : AuditRow) : Json :=
  .obj [("id", .num r.id), ("audit_name", .str r.audit_name), ("created_at", .num r.created_at)]

/-- The `dict(row)` of a `SELECT * FROM audits` row (`src/main.py:112`): all
four columns.  asyncpg has no `jsonb` codec registered, so `report_data`
comes back as the database's text rendering of the stored jsonb structure,
i.e. a string. -/
def rowJson (r : AuditRow) : Json :=
  .obj [("id", .num r.id), ("audit_name", .str r.audit_name),
        ("created_at", .num r.created_at), ("report_data", .str (jsonbText r.report_data))]

/-- Inserts a row into a list already sorted by `created_at` descending,
keeping it sorted. -/
def insertByCreatedDesc (r : AuditRow) : List AuditRow → List AuditRow
  | [] => [r]
  | x :: xs =>
    if x.created_at ≤ r.created_at then r :: x :: xs
    else x :: insertByCreatedDesc r xs

/-- The semantics of `ORDER BY created_at DESC` in the query at
`src/main.py:96`: the stored rows, sorted by creation time, most recent
first (insertion sort; ties may come out in any order, as in SQL). -/
def sortByCreatedDesc : List AuditRow → List AuditRow
  | [] => []
  | x :: xs => insertByCreatedDesc x (sortByCreatedDesc xs)

/-- Handler `get_all_audits` (`src/main.py:86-100`).  `fault` injects an
exception raised inside the `try` block by the pool acquisition or the query
(a database error); `none` means the database interaction succeeds. -/
def get_all_audits (pool : StatePool) (db : DB) (fault : Option String) : PyResult Json :=
  match getPoolAttr pool with
  | .error e => .exn (.other e)
  | .ok p =>
    if poolTruthy p = false then
      .exn (.httpExc 503 "Database connection pool is not available.")
    else
      let tryBlock : PyResult Json :=
        match fault with
        | some m => .exn (.other m)
        | none => .ok (.arr ((sortByCreatedDesc db.rows).map summaryJson))
      match tryBlock with
      | .ok j => .ok j
      | .exn _ => .exn (.httpExc 500 "Internal server error")

/-- Handler `get_audit_by_id` (`src/main.py:102-118`).  The whole body after
the pool check — fetch, the `if not row` 404, and the `return` — sits inside
`try`, and `except Exception` catches every exception (`HTTPException`
included) and raises a 500 in its place. -/
def get_audit_by_id (pool : StatePool) (db : DB) (fault : Option String) (audit_id : Int) : PyResult Json :=
  match getPoolAttr pool with
  | .error e => .exn (.other e)
  | .ok p =>
    if poolTruthy p = false then
      .exn (.httpExc 503 "Database connection pool is not available.")
    else
      let tryBlock : PyResult Json :=
        match fault with
        | some m => .exn (.other m)
        | none =>
          match db.rows.find? (fun r => (r.id : Int) == audit_id) with
          | none => .exn (.httpExc 404 "Audit not found")
          | some r => .ok (rowJson r)
      match tryBlock with
      | .ok j => .ok j
      | .exn _ => .exn (.httpExc 500 "Internal server error")

/-- The handler argument of `create_audit` (`src/main.py:121`): the payload
after pydantic validation of the `AuditCreate` model (`src/main.py:28-30`),
`audit_name : str` aliased `auditName` and
`report_data : list[dict[str, Any]]` aliased `reportData`. -/
structure AuditCreate where
  audit_name : String
  report_data : List (List (String × Json))
deriving Repr, DecidableEq

/-- The submitted report as a JSON value (an array of objects). -/
def reportJson (a : AuditCreate) : Json :=
  .arr (a.report_data.map Json.obj)

/-- The PostgreSQL error message for a string exceeding `VARCHAR(255)`
(PostgreSQL counts characters, as `String.length` does). -/
def varcharErrMsg : String := "value too long for type character varying(255)"

/-- Handler `create_audit` (`src/main.py:120-149`).  Inside `try` it
serialises `report_data` with `json.dumps` and runs
`INSERT INTO audits (audit_name, report_data) VALUES ($1, $2) RETURNING id`;
the JSONB column stores the parsed, normalised structure of the serialised
text (`jsonbStore`), the new row gets the next `SERIAL` id and the server
clock `now`.  The insert fails
when `audit_name` exceeds the column's `VARCHAR(255)`; `fault` injects any
other exception inside the `try` block.  `except Exception` turns either
into a 500 whose detail appends the exception's text.  Returns the handler
outcome and the resulting database state. -/
def create_audit (pool : StatePool) (db : DB) (fault : Option String) (now : Nat)
    (audit : AuditCreate) : PyResult Json × DB :=
  match getPoolAttr pool with
  | .error e => (.exn (.other e), db)
  | .ok p =>
    if poolTruthy p = false then
      (.exn (.httpExc 503 "Database connection pool is not available."), db)
    else
      match fault with
      | some m => (.exn (.httpExc 500 ("Error saving to database: " ++ m)), db)
      | none =>
        if audit.audit_name.length ≤ 255 then
          (.ok (.obj [("message", .str "Audit report saved successfully"),
                      ("auditId", .num db.nextId)]),
           ⟨db.rows ++ [⟨db.nextId, audit.audit_name, now, jsonbStore (reportJson audit)⟩],
            db.nextId + 1⟩)
        else
          (.exn (.httpExc 500 ("Error saving to database: " ++ varcharErrMsg)), db)

/-- Tests whether a JSON value is an array of objects, returning the decoded
field lists — the shape pydantic requires of `reportData`
(`list[dict[str, Any]]`, `src/main.py:30`). -/
def decodeDicts : List Json → Option (List (List (String × Json)))
  | [] => some []
  | .obj fs :: rest => (decodeDicts rest).map (fs :: ·)
  | _ => none

/-- Pydantic validation of the request body against the `AuditCreate` model
(`src/main.py:28-30`): the body must be an object, `auditName` present and a
string, `reportData` present and an array of objects.  FastAPI runs this
before the handler body; on failure it answers 422 without calling the
handler. -/
def validateAuditCreate (body : Json) : Except String AuditCreate :=
  match body with
  | .obj fs =>
    match lookupField "auditName" fs with
    | none => .error "Field required: auditName"
    | some (.str name) =>
      match lookupField "reportData" fs with
      | none => .error "Field required: reportData"
      | some (.arr items) =>
        match decodeDicts items with
        | some dicts => .ok ⟨name, dicts⟩
        | none => .error "Input should be a valid dictionary: reportData item"
      | some _ => .error "Input should be a valid list: reportData"
    | some _ => .error "Input should be a valid string: auditName"
  | _ => .error "Input should be a valid dictionary"

/-- The body FastAPI sends with a 422 validation failure (the exact error
list is framework detail; only the status matters to the claims). -/
def validationErrorBody : Json :=
  .obj [("detail", .str "request validation error")]

/-- The full `POST /api/audits` pipeline: pydantic validation of the raw
body, then the `create_audit` handler (success status 201,
`src/main.py:120`), then the framework's exception-to-response mapping.
Returns the response and the resulting database state. -/
def postAudits (pool : StatePool) (db : DB) (fault : Option String) (now : Nat)
    (body : Json) : Response × DB :=
  match validateAuditCreate body with
  | .error _ => (⟨422, validationErrorBody⟩, db)
  | .ok audit =>
    let (r, db2) := create_audit pool db fault now audit
    (serveResult 201 r, db2)

/-- The full `GET /api/audits/{audit_id}` pipeline.  FastAPI first attempts
the integer conversion the handler signature declares (`audit_id: int`,
`src/main.py:103`); `conv` is that conversion's outcome.  Its accept set is
pydantic's lax string-to-int — broader than a bare decimal numeral: it trims
whitespace and also accepts plus-signed, underscore-separated and
trailing-zero-decimal forms — so it is taken as an input here rather than
re-implemented; `none` stands for exactly the segments that do not convert.
On `none` FastAPI answers 422 without running the handler, hence without
touching the database; on `some i` the handler runs on `i` and the framework
maps its outcome. -/
def getAuditByIdEndpoint (pool : StatePool) (db : DB) (fault : Option String)
    (conv : Option Int) : Response :=
  match conv with
  | none => ⟨422, validationErrorBody⟩
  | some i => serveResult 200 (get_audit_by_id pool db fault i)

/-- Handler `serve_react_app` (`src/main.py:156-163`), the production-only
catch-all: serve the frontend `index.html` if that file exists, else raise
`HTTPException(404)`.  `indexExists` models the filesystem check at
`src/main.py:159`; the served file is represented by its name. -/
def serve_react_app (indexExists : Bool) : PyResult Json :=
  if indexExists then .ok (.str "index.html")
  else .exn (.httpExc 404 "Frontend entrypoint not found")

/-- The routes the application registers, in registration order. -/
inductive Route where
  | listAudits : Route
  | getAuditById : Route
  | createAudit : Route
  | staticMount : Route
  | spaFallback : Route
deriving Repr, DecidableEq

/-- HTTP methods the service distinguishes. -/
inductive Method where
  | get : Method
  | post : Method
deriving Repr, DecidableEq

/-- Drops a prefix from a character list, or fails when it is not a
prefix. -/
def dropPre : List Char → List Char → Option (List Char)
  | [], s => some s
  | _ :: _, [] => none
  | a :: as, b :: bs => if a = b then dropPre as bs else none

/-- Whether a route matches a request, per FastAPI/Starlette routing:
`/api/audits` exactly; `/api/audits/{audit_id}` for one more non-empty
slash-free segment; the `/static` mount by path prefix; the
`/{full_path:path}` catch-all for every path. -/
def routeMatches (r : Route) (m : Method) (path : String) : Bool :=
  match r with
  | .listAudits => m == .get && path == "/api/audits"
  | .getAuditById =>
    m == .get &&
      (match dropPre "/api/audits/".data path.data with
       | some seg => seg ≠ [] && !seg.contains '/'
       | none => false)
  | .createAudit => m == .post && path == "/api/audits"
  | .staticMount => (dropPre "/static".data path.data).isSome
  | .spaFallback => m == .get

/-- The application's route table (`src/main.py:86,102,120,153-156`): the
three API routes always; the `/static` mount and the catch-all SPA route
only when `NODE_ENV` is `"production"`. -/
def appRoutes (production : Bool) : List Route :=
  [.listAudits, .getAuditById, .createAudit] ++
    (if production then [.staticMount, .spaFallback] else [])

/-- Starlette routing: the first registered route that matches wins. -/
def matchRoute (routes : List Route) (m : Method) (path : String) : Option Route :=
  routes.find? (fun r => routeMatches r m path)

/-- Runs a sequence of create requests against the database, threading the
database state; each element carries the validated payload and an optional
injected database fault for that request.  Concurrent creates are modelled
by this arbitrary serialisation: the id-assigning `INSERT … RETURNING id` is
atomic at the database, whose `SERIAL` sequence serialises `nextval` calls,
so any concurrent execution is some interleaving of these atomic steps. -/
def runCreates (pool : StatePool) (now : Nat) :
    DB → List (AuditCreate × Option String) → List (PyResult Json) × DB
  | db, [] => ([], db)
  | db, (a, f) :: rest =>
    let (r, db2) := create_audit pool db f now a
    let (rs, db3) := runCreates pool now db2 rest
    (r :: rs, db3)

/-- The `auditId` values of the successful outcomes, in execution order. -/
def successIds : List (PyResult Json) → List Int
  | [] => []
  | .ok (.obj fs) :: rest =>
    (match lookupField "auditId" fs with
     | some (.num n) => n :: successIds rest
     | _ => successIds rest)
  | _ :: rest => successIds rest

/-- Whether a JSON value has the shape pydantic's `list[dict[str, Any]]`
requires: an array all of whose elements are objects. -/
def isArrayOfObjects (v : Json) : Bool :=
  match v with
  | .arr items => (decodeDicts items).isSome
  | _ => false

/-- The success body `create_audit` returns at `src/main.py:145`. -/
def createOkBody (n : Nat) : Json :=
  .obj [("message", .str "Audit report saved successfully"), ("auditId", .num n)]

/-- The `created_at` value of a list entry (0 for entries without one; every
entry the service produces has one). -/
def entryCreated (j : Json) : Int :=
  match j with
  | .obj fs =>
    match lookupField "created_at" fs with
    | some (.num n) => n
    | _ => 0
  | _ => 0

/-- A concrete create payload, the spec's own example:
`{"auditName": "Q1 Review", "reportData": [{"item": "x"}]}`. -/
def exReq : AuditCreate := ⟨"Q1 Review", [[("item", Json.str "x")]]⟩

end AuditBackend

namespace AuditBackend

/-! Theorems.  Each claim of the specification is settled by one theorem
below; shared lemmas come first. -/

theorem create_audit_spec (pool : StatePool) (db : DB) (fault : Option String) (now : Nat)
    (a : AuditCreate) :
    (∃ e, create_audit pool db fault now a = (.exn e, db)) ∨
    create_audit pool db fault now a
      = (.ok (createOkBody db.nextId),
         ⟨db.rows ++ [⟨db.nextId, a.audit_name, now, jsonbStore (reportJson a)⟩],
          db.nextId + 1⟩) := by
  cases pool with
  | unset => exact .inl ⟨_, rfl⟩
  | set p =>
    cases fault with
    | some m => exact .inl ⟨_, rfl⟩
    | none =>
      by_cases h : a.audit_name.length ≤ 255
      · right
        simp [create_audit, getPoolAttr, poolTruthy, h, createOkBody]
      · left
        exact ⟨.httpExc 500 ("Error saving to database: " ++ varcharErrMsg),
          by simp [create_audit, getPoolAttr, poolTruthy, h]⟩

theorem successIds_exn (e : PyExn) (rs : List (PyResult Json)) :
    successIds (.exn e :: rs) = successIds rs := rfl

theorem successIds_ok (n : Nat) (rs : List (PyResult Json)) :
    successIds (.ok (createOkBody n) :: rs) = (n : Int) :: successIds rs := rfl

theorem insertByCreatedDesc_head (r : AuditRow) (l : List AuditRow) :
    (insertByCreatedDesc r l).head? = some r ∨ (insertByCreatedDesc r l).head? = l.head? := by
  cases l with
  | nil => left; rfl
  | cons x xs =>
    simp only [insertByCreatedDesc]
    by_cases hx : x.created_at ≤ r.created_at
    · rw [if_pos hx]; left; rfl
    · rw [if_neg hx]; right; rfl

theorem insertByCreatedDesc_chain (r : AuditRow) (l : List AuditRow)
    (h : List.Chain' (fun a b => b.created_at ≤ a.created_at) l) :
    List.Chain' (fun a b => b.created_at ≤ a.created_at) (insertByCreatedDesc r l) := by
  induction l with
  | nil => simp [insertByCreatedDesc]
  | cons x xs ih =>
    simp only [insertByCreatedDesc]
    by_cases hx : x.created_at ≤ r.created_at
    · rw [if_pos hx]
      exact List.Chain'.cons hx h
    · rw [if_neg hx]
      rw [List.chain'_cons']
      refine ⟨?_, ih (List.Chain'.tail h)⟩
      intro y hy
      rcases insertByCreatedDesc_head r xs with hh | hh
      · rw [hh] at hy
        cases hy
        exact Nat.le_of_lt (Nat.lt_of_not_le hx)
      · rw [hh] at hy
        exact (List.chain'_cons'.mp h).1 y hy

theorem sortByCreatedDesc_chain (l : List AuditRow) :
    List.Chain' (fun a b => b.created_at ≤ a.created_at) (sortByCreatedDesc l) := by
  induction l with
  | nil => simp [sortByCreatedDesc]
  | cons x xs ih => exact insertByCreatedDesc_chain x _ ih

theorem entryCreated_summary (r : AuditRow) :
    entryCreated (summaryJson r) = (r.created_at : Int) := rfl

theorem jsonKeys_summary (r : AuditRow) :
    jsonKeys (summaryJson r) = ["id", "audit_name", "created_at"] := rfl

theorem runCreates_ids_bounded (pool : StatePool) (now : Nat)
    (reqs : List (AuditCreate × Option String)) :
    ∀ db : DB,
      List.Chain' (fun a b : Int => a < b) (successIds (runCreates pool now db reqs).1) ∧
      ∀ x ∈ successIds (runCreates pool now db reqs).1, (db.nextId : Int) ≤ x := by
  induction reqs with
  | nil =>
    intro db
    exact ⟨by simp [runCreates, successIds], by simp [runCreates, successIds]⟩
  | cons hd tl ih =>
    intro db
    obtain ⟨a, f⟩ := hd
    have hrun : runCreates pool now db ((a, f) :: tl)
        = ((create_audit pool db f now a).1
            :: (runCreates pool now (create_audit pool db f now a).2 tl).1,
           (runCreates pool now (create_audit pool db f now a).2 tl).2) := by
      simp only [runCreates]
    rcases create_audit_spec pool db f now a with ⟨e, he⟩ | hok
    · rw [hrun, he]
      simp only [successIds_exn]
      exact ih db
    · rw [hrun, hok]
      simp only [successIds_ok]
      have hih := ih ⟨db.rows ++ [⟨db.nextId, a.audit_name, now, jsonbStore (reportJson a)⟩], db.nextId + 1⟩
      have hbound : ∀ x ∈ successIds (runCreates pool now
            ⟨db.rows ++ [⟨db.nextId, a.audit_name, now, jsonbStore (reportJson a)⟩], db.nextId + 1⟩ tl).1,
          ((db.nextId + 1 : Nat) : Int) ≤ x := hih.2
      constructor
      · rw [List.chain'_cons']
        refine ⟨?_, hih.1⟩
        intro y hy
        have hym := List.mem_of_mem_head? hy
        have hb := hbound y hym
        push_cast at hb
        omega
      · intro x hx
        rcases List.mem_cons.mp hx with rfl | hx2
        · exact le_refl _
        · have hb := hbound x hx2
          push_cast at hb
          omega

/-- C1: the claim says a GET of a non-existent id returns 404 and never 500.
The code violates it: at `src/main.py:114` the `HTTPException(404)` is
raised inside the `try` block, and `except Exception` at `src/main.py:116`
catches it and raises `HTTPException(500, "Internal server error")` in its
place.  Evaluated at the failing input — pool available, empty `audits`
table, `GET /api/audits/1` — the response is the generic 500, not 404. -/
theorem getById_missing_row_yields_500_not_404 :
    serveResult 200 (get_audit_by_id (.set .live) DB.init none 1)
      = ⟨500, .obj [("detail", .str "Internal server error")]⟩ ∧
    (serveResult 200 (get_audit_by_id (.set .live) DB.init none 1)).status ≠ 404 := by
  decide

/-- C2: the claim says that when the pool was not initialised every handler
fails with 503.  The code violates it: on pool-creation failure
`app.state.pool` is never assigned (`src/main.py:47` is skipped), so the
check `if not app.state.pool` itself raises `AttributeError` — Starlette's
`State.__getattr__` raises on unset attributes — which escapes the handler
and is surfaced by `ServerErrorMiddleware` as a generic 500, never as the
coded 503, in all three handlers, for every database state, request
argument and injected fault. -/
theorem pool_unset_yields_500_not_503 (db : DB) (fault : Option String) (i : Int)
    (now : Nat) (a : AuditCreate) :
    serveResult 200 (get_all_audits .unset db fault) = ⟨500, .str "Internal Server Error"⟩ ∧
    serveResult 200 (get_audit_by_id .unset db fault i) = ⟨500, .str "Internal Server Error"⟩ ∧
    serveResult 201 (create_audit .unset db fault now a).1
      = ⟨500, .str "Internal Server Error"⟩ := ⟨rfl, rfl, rfl⟩

/-- C6: on a database error (any exception in the `try` block, a failing
`json.dumps` included) `create_audit` answers 500 with the underlying error
text appended to its detail (`src/main.py:149`), while `get_all_audits`
(`src/main.py:100`) and `get_audit_by_id` (`src/main.py:118`) answer 500
with the fixed detail "Internal server error", independent of the error
text, for every database state and error message. -/
theorem db_error_detail_exposure (p : PoolObj) (db : DB) (m : String) (i : Int)
    (now : Nat) (a : AuditCreate) :
    create_audit (.set p) db (some m) now a
      = (.exn (.httpExc 500 ("Error saving to database: " ++ m)), db) ∧
    get_all_audits (.set p) db (some m) = .exn (.httpExc 500 "Internal server error") ∧
    get_audit_by_id (.set p) db (some m) i
      = .exn (.httpExc 500 "Internal server error") := ⟨rfl, rfl, rfl⟩

/-- C10: a `GET /api/audits/{id}` whose path segment does not convert to an
integer (the conversion outcome is `none` — `getAuditByIdEndpoint` takes the
outcome of pydantic's lax string-to-int as input rather than re-implementing
its accept set) is answered 422 by FastAPI before the handler body runs —
uniformly in the pool state, database and injected fault, so no database
access occurs — and that response is neither 404 nor 500. -/
theorem bad_path_segment_yields_422 (pool : StatePool) (db : DB) (fault : Option String) :
    getAuditByIdEndpoint pool db fault none = ⟨422, validationErrorBody⟩ ∧
    (getAuditByIdEndpoint pool db fault none).status ≠ 404 ∧
    (getAuditByIdEndpoint pool db fault none).status ≠ 500 :=
  ⟨rfl, show (422 : Nat) ≠ 404 by decide, show (422 : Nat) ≠ 500 by decide⟩

/-- C5: every successful `GET /api/audits` (live pool, no database error)
answers 200 with a list each of whose entries has exactly the fields `id`,
`audit_name` and `created_at` — never `report_data` — and whose `created_at`
values are non-increasing (most recent first), for any set of stored
audits. -/
theorem list_audits_shape_and_order (p : PoolObj) (db : DB) :
    ∃ l : List Json,
      serveResult 200 (get_all_audits (.set p) db none) = ⟨200, .arr l⟩ ∧
      (∀ j ∈ l, jsonKeys j = ["id", "audit_name", "created_at"]) ∧
      List.Chain' (fun a b => entryCreated b ≤ entryCreated a) l := by
  refine ⟨(sortByCreatedDesc db.rows).map summaryJson, rfl, ?_, ?_⟩
  · intro j hj
    obtain ⟨r, _, rfl⟩ := List.mem_map.mp hj
    exact jsonKeys_summary r
  · rw [List.chain'_map]
    refine (sortByCreatedDesc_chain db.rows).imp ?_
    intro a b hab
    rw [entryCreated_summary, entryCreated_summary]
    exact_mod_cast hab

/-- C7: for any serialisation of concurrent create requests (the
id-assigning `INSERT … RETURNING id` is atomic at the database, whose
`SERIAL` sequence serialises id assignment), the identifiers returned by the
successful creates are strictly increasing in execution order, and hence
pairwise distinct — no two creates receive the same id — whatever the pool
state, initial database, payloads and injected faults. -/
theorem concurrent_create_ids_distinct_increasing (pool : StatePool) (now : Nat)
    (db : DB) (reqs : List (AuditCreate × Option String)) :
    List.Chain' (fun a b : Int => a < b) (successIds (runCreates pool now db reqs).1) ∧
    (successIds (runCreates pool now db reqs).1).Nodup := by
  have h := runCreates_ids_bounded pool now reqs db
  refine ⟨h.1, ?_⟩
  have hp := List.chain'_iff_pairwise.mp h.1
  exact hp.imp (fun hab => ne_of_lt hab)

/-- C3: a POST body that is an object missing the `auditName` field, or
whose `reportData` field is absent or not an array of objects, fails
pydantic validation of `AuditCreate` (`src/main.py:28-30`) and is answered
422 (a client error) by FastAPI before the handler body runs — uniformly in
the pool state and injected fault, so the database is never reached — and
the database state is unchanged (no row inserted). -/
theorem malformed_create_body_rejected (pool : StatePool) (db : DB) (fault : Option String)
    (now : Nat) (fs : List (String × Json))
    (h : lookupField "auditName" fs = none ∨
         ∀ v, lookupField "reportData" fs = some v → isArrayOfObjects v = false) :
    (postAudits pool db fault now (.obj fs)).1.status = 422 ∧
    (postAudits pool db fault now (.obj fs)).2 = db := by
  have hval : ∃ msg, validateAuditCreate (.obj fs) = .error msg := by
    rcases h with h1 | h2
    · exact ⟨"Field required: auditName", by simp [validateAuditCreate, h1]⟩
    · cases hn : lookupField "auditName" fs with
      | none => exact ⟨"Field required: auditName", by simp [validateAuditCreate, hn]⟩
      | some v =>
        cases v with
        | str name =>
          cases hr : lookupField "reportData" fs with
          | none => exact ⟨"Field required: reportData", by simp [validateAuditCreate, hn, hr]⟩
          | some rv =>
            have hbad := h2 rv hr
            cases rv with
            | arr items =>
              have hdec : decodeDicts items = none := by
                cases hd : decodeDicts items with
                | none => rfl
                | some d => rw [isArrayOfObjects, hd] at hbad; simp at hbad
              exact ⟨"Input should be a valid dictionary: reportData item",
                by simp [validateAuditCreate, hn, hr, hdec]⟩
            | null => exact ⟨"Input should be a valid list: reportData", by simp [validateAuditCreate, hn, hr]⟩
            | bool b => exact ⟨"Input should be a valid list: reportData", by simp [validateAuditCreate, hn, hr]⟩
            | num n => exact ⟨"Input should be a valid list: reportData", by simp [validateAuditCreate, hn, hr]⟩
            | str s => exact ⟨"Input should be a valid list: reportData", by simp [validateAuditCreate, hn, hr]⟩
            | obj o => exact ⟨"Input should be a valid list: reportData", by simp [validateAuditCreate, hn, hr]⟩
        | null => exact ⟨"Input should be a valid string: auditName", by simp [validateAuditCreate, hn]⟩
        | bool b => exact ⟨"Input should be a valid string: auditName", by simp [validateAuditCreate, hn]⟩
        | num n => exact ⟨"Input should be a valid string: auditName", by simp [validateAuditCreate, hn]⟩
        | arr xs => exact ⟨"Input should be a valid string: auditName", by simp [validateAuditCreate, hn]⟩
        | obj o => exact ⟨"Input should be a valid string: auditName", by simp [validateAuditCreate, hn]⟩
  obtain ⟨msg, hmsg⟩ := hval
  rw [postAudits, hmsg]
  exact ⟨rfl, rfl⟩

/-- C3 witness: the body `{"reportData": "oops"}` — `auditName` missing and
`reportData` not even an array — is answered 422 with no change to the
initial database, for a live pool and no fault. -/
theorem malformed_create_body_rejected_witness :
    (lookupField "auditName" [("reportData", Json.str "oops")] = none ∨
     ∀ v, lookupField "reportData" [("reportData", Json.str "oops")] = some v →
       isArrayOfObjects v = false) ∧
    ((postAudits (.set .live) DB.init none 0 (.obj [("reportData", Json.str "oops")])).1.status = 422 ∧
     (postAudits (.set .live) DB.init none 0 (.obj [("reportData", Json.str "oops")])).2 = DB.init) :=
  ⟨Or.inl (by decide),
   malformed_create_body_rejected (.set .live) DB.init none 0
     [("reportData", Json.str "oops")] (Or.inl (by decide))⟩

theorem find_fresh_row (rows : List AuditRow) (n : Nat) (hn : ∀ r ∈ rows, r.id < n)
    (row : AuditRow) (hr : row.id = n) :
    (rows ++ [row]).find? (fun r => (r.id : Int) == (n : Int)) = some row := by
  induction rows with
  | nil =>
    simp only [List.nil_append, List.find?]
    rw [show ((row.id : Int) == (n : Int)) = true by simp [hr]]
  | cons x xs ih =>
    have hx : x.id < n := hn x (List.mem_cons_self x xs)
    have hne : ((x.id : Int) == (n : Int)) = false := by
      simp only [beq_eq_false_iff_ne, ne_eq, Int.natCast_inj]
      omega
    simp only [List.cons_append, List.find?, hne]
    exact ih (fun r hrm => hn r (List.mem_cons_of_mem x hrm))

/-- C4: the claim says the record fetched right after a successful create has
`audit_name` and `report_data` equal to the submitted values exactly.  It
fails on `report_data`: no asyncpg `jsonb` codec is registered (which is why
`src/main.py:137` must `json.dumps` by hand), so the fetched `report_data`
is the JSON text of the stored structure — a string, not the submitted
array.  Concretely: creating `{"auditName": "Q1 Review", "reportData":
[{"item": "x"}]}` on a fresh database yields id 1, and fetching id 1 returns
`audit_name` `"Q1 Review"` as submitted, but `report_data` is the string
`"[{\"item\": \"x\"}]"`, which is not the submitted array. -/
theorem create_get_roundtrip_counterexample :
    (create_audit (.set .live) DB.init none 0 exReq).1 = .ok (createOkBody 1) ∧
    get_audit_by_id (.set .live) (create_audit (.set .live) DB.init none 0 exReq).2 none 1
      = .ok (.obj [("id", .num 1), ("audit_name", .str "Q1 Review"), ("created_at", .num 0),
                   ("report_data", .str "[\x7b\"item\": \"x\"\x7d]")]) ∧
    Json.str "[\x7b\"item\": \"x\"\x7d]" ≠ reportJson exReq := by
  decide

/-- C4 (amended): after a successful create (live pool, no fault, name within
`VARCHAR(255)`, id sequence ahead of all stored ids) the returned identifier
is the new row's id, and immediately fetching it returns the submitted
`audit_name` exactly; `report_data`, however, comes back as a JSON text
string — the database's rendering of the stored report — rather than as the
submitted array. -/
theorem create_get_roundtrip_amended (p : PoolObj) (db : DB) (hinv : DBinv db)
    (now : Nat) (a : AuditCreate) (hlen : a.audit_name.length ≤ 255) :
    (create_audit (.set p) db none now a).1 = .ok (createOkBody db.nextId) ∧
    ∃ s : String,
      get_audit_by_id (.set p) (create_audit (.set p) db none now a).2 none db.nextId
        = .ok (.obj [("id", .num db.nextId), ("audit_name", .str a.audit_name),
                     ("created_at", .num now),
                     ("report_data", .str s)]) := by
  have hcreate : create_audit (.set p) db none now a
      = (.ok (createOkBody db.nextId),
         ⟨db.rows ++ [⟨db.nextId, a.audit_name, now, jsonbStore (reportJson a)⟩],
          db.nextId + 1⟩) := by
    simp [create_audit, getPoolAttr, poolTruthy, hlen, createOkBody]
  refine ⟨by rw [hcreate], jsonbText (jsonbStore (reportJson a)), ?_⟩
  rw [hcreate]
  have hfind := find_fresh_row db.rows db.nextId hinv
    ⟨db.nextId, a.audit_name, now, jsonbStore (reportJson a)⟩ rfl
  simp [get_audit_by_id, getPoolAttr, poolTruthy, hfind, rowJson]

/-- C4 witness: the amended round-trip at the spec's own example — fresh
database, payload `{"auditName": "Q1 Review", "reportData": [{"item":
"x"}]}` — where the fetched `audit_name` is `"Q1 Review"` and the fetched
`report_data` is a string. -/
theorem create_get_roundtrip_amended_witness :
    DBinv DB.init ∧ exReq.audit_name.length ≤ 255 ∧
    ((create_audit (.set .live) DB.init none 0 exReq).1 = .ok (createOkBody DB.init.nextId) ∧
     ∃ s : String,
       get_audit_by_id (.set .live) (create_audit (.set .live) DB.init none 0 exReq).2 none
           DB.init.nextId
         = .ok (.obj [("id", .num DB.init.nextId), ("audit_name", .str exReq.audit_name),
                      ("created_at", .num 0),
                      ("report_data", .str s)])) :=
  ⟨fun r hr => absurd hr (List.not_mem_nil r), by decide,
   create_get_roundtrip_amended .live DB.init (fun r hr => absurd hr (List.not_mem_nil r))
     0 exReq (by decide)⟩

/-- C8: when the production flag is set, a GET on any path matching neither
the two GET API routes nor the `/static` mount prefix is routed to the
catch-all `serve_react_app` (`src/main.py:156`), which serves the fixed
index document when it exists and answers 404 when it does not; when the
flag is unset the fallback route is not registered at all
(`src/main.py:153`). -/
theorem spa_fallback_routing (path : String)
    (hla : routeMatches .listAudits .get path = false)
    (hgi : routeMatches .getAuditById .get path = false)
    (hst : routeMatches .staticMount .get path = false) :
    Route.spaFallback ∉ appRoutes false ∧
    matchRoute (appRoutes true) .get path = some .spaFallback ∧
    serveResult 200 (serve_react_app true) = ⟨200, .str "index.html"⟩ ∧
    serveResult 200 (serve_react_app false)
      = ⟨404, .obj [("detail", .str "Frontend entrypoint not found")]⟩ := by
  refine ⟨by decide, ?_, rfl, rfl⟩
  have hca : routeMatches .createAudit .get path = false := rfl
  have hsf : routeMatches .spaFallback .get path = true := rfl
  simp [matchRoute, appRoutes, List.find?, hla, hgi, hca, hst, hsf]

/-- C8 witness: the path "/dashboard" matches no API route and not the
static prefix; in production it is routed to the SPA fallback (which serves
the index when present and 404 when absent), and without the flag the
fallback is absent from the route table. -/
theorem spa_fallback_routing_witness :
    (routeMatches .listAudits .get "/dashboard" = false ∧
     routeMatches .getAuditById .get "/dashboard" = false ∧
     routeMatches .staticMount .get "/dashboard" = false) ∧
    (Route.spaFallback ∉ appRoutes false ∧
     matchRoute (appRoutes true) .get "/dashboard" = some .spaFallback ∧
     serveResult 200 (serve_react_app true) = ⟨200, .str "index.html"⟩ ∧
     serveResult 200 (serve_react_app false)
       = ⟨404, .obj [("detail", .str "Frontend entrypoint not found")]⟩) :=
  ⟨⟨by decide, by decide, by decide⟩,
   spa_fallback_routing "/dashboard" (by decide) (by decide) (by decide)⟩

/-- C9: a create request whose `auditName` is a string longer than 255
characters passes pydantic's structural validation (the field is a string,
`reportData` decodes as an array of objects), but the INSERT violates the
column's `VARCHAR(255)` and raises; the handler's `except` answers 500 with
the database error in the detail, and no row is inserted (the database is
unchanged). -/
theorem long_name_passes_validation_fails_insert (p : PoolObj) (db : DB) (now : Nat)
    (name : String) (items : List Json) (dicts : List (List (String × Json)))
    (hd : decodeDicts items = some dicts) (hlen : 255 < name.length) :
    postAudits (.set p) db none now
        (.obj [("auditName", .str name), ("reportData", .arr items)])
      = (⟨500, .obj [("detail", .str ("Error saving to database: " ++ varcharErrMsg))]⟩,
         db) := by
  have hnle : ¬ name.length ≤ 255 := not_le.mpr hlen
  have hval : validateAuditCreate (.obj [("auditName", .str name), ("reportData", .arr items)])
      = .ok ⟨name, dicts⟩ := by
    simp [validateAuditCreate, lookupField, hd]
  simp only [postAudits, hval]
  simp [create_audit, getPoolAttr, poolTruthy, hnle, serveResult]

/-- C9 witness: a 256-character name with an empty report array passes
validation and is answered 500 with the varchar error detail, leaving the
initial database unchanged. -/
theorem long_name_passes_validation_fails_insert_witness :
    decodeDicts [] = some [] ∧
    255 < (String.mk (List.replicate 256 'a')).length ∧
    postAudits (.set .live) DB.init none 0
        (.obj [("auditName", .str (String.mk (List.replicate 256 'a'))),
               ("reportData", .arr [])])
      = (⟨500, .obj [("detail", .str ("Error saving to database: " ++ varcharErrMsg))]⟩,
         DB.init) := by
  have hlen : 255 < (String.mk (List.replicate 256 'a')).length := by
    have h1 : (String.mk (List.replicate 256 'a')).length = 256 := by
      show (List.replicate 256 'a').length = 256
      exact List.length_replicate 256 'a'
    omega
  exact ⟨rfl, hlen,
    long_name_passes_validation_fails_insert .live DB.init 0
      (String.mk (List.replicate 256 'a')) [] [] rfl hlen⟩

end AuditBackend
